import Mathlib

/-!
Verification development for the Black Knight: Sword of Rage ramp-chaser
LED program (`src/bksor_chaser.ino`, plus the three earlier revisions kept
as `src/unnamed/part_000..part_002`).

The program is shallowly embedded: every C global becomes a field of an
explicit state record, every function becomes a Lean function on that
record.  Machine integers (`int`, `unsigned long`) are modelled as
unbounded `ℤ`; all quantities handled by the verified claims stay far
below the 16-bit overflow range of the AVR target, so wraparound is out of
scope.  The C truncating integer division is modelled by `Int.tdiv`.
External collaborators are abstracted exactly as the spec prescribes:
`digitalRead` becomes an explicit `flailStateDetected` argument,
`random(a, b)` becomes an oracle stream `ℕ → ℤ` whose draws are assumed to
lie in `[a, b)`, and `FastLED.show` (a pure hardware flush) is dropped.
-/

namespace Bksor

/-! ### Project configuration values (the `#define`s of bksor_chaser.ino) -/

def NUM_ANIMATION_LEDS : ℤ := 28

def LEDS_PER_STRIP : ℤ := 14

def LEFT_STRIP_INDEX : ℤ := 0

def RIGHT_STRIP_INDEX : ℤ := 14

def COLOUR_SEQUENCE_SIZE : ℤ := 11

def COLOUR_SEQUENCE_SIZE_SHORT : ℤ := 7

def ANIMATION_DELAY_CHASE : ℤ := 50

def ANIMATION_DELAY_OFFSET_CHASE : ℤ := 40

def ANIMATION_DELAY_GLOW : ℤ := 45

def ANIMATION_DELAY_CROSS : ℤ := 45

def ANIMATION_DELAY_ZIPPY : ℤ := 30

def ANIMATION_DELAY_ZIPPY_CROSS : ℤ := 30

def ANIMATION_DELAY_DECAY : ℤ := 0

def ANIMATION_TYPE_CHASE : ℤ := 0

def ANIMATION_TYPE_OFFSET_CHASE : ℤ := 1

def ANIMATION_TYPE_GLOW : ℤ := 2

def ANIMATION_TYPE_CROSS : ℤ := 3

def ANIMATION_TYPE_ZIPPY : ℤ := 4

def ANIMATION_TYPE_ZIPPY_CROSS : ℤ := 5

def ANIMATION_TYPE_DECAY : ℤ := 6

def ANIMATION_TYPE_NONE : ℤ := 7

def ANIMATION_DIRECTION_UP : ℤ := 1

def ANIMATION_DIRECTION_DOWN : ℤ := -1

def FLAIL_STATE_UNKNOWN : ℤ := 0

def FLAIL_STATE_OPEN : ℤ := 1

def FLAIL_STATE_CLOSED : ℤ := 2

def ANIMATION_CHANGE_UNSTABLE : ℤ := 350

def ANIMATION_CHANGE_COOLDOWN : ℤ := 600

/-! ### Colour data -/

/-- One WS2812 colour value (`CRGB`). -/
structure CRGB where
  r : ℤ
  g : ℤ
  b : ℤ
deriving DecidableEq, Repr

/-- `colourScheme[]`: red/green pairs, blue always 0. -/
def colourScheme : List ℤ :=
  [255, 154, 255, 122, 255, 90, 255, 0, 128, 0, 64, 0, 32, 0, 0, 0, 0, 0, 0, 0, 0, 0]

/-- `colourSequence`, as filled by `setup()`:
`colourSequence[i >> 1] = CRGB(colourScheme[i], colourScheme[i+1], 0)` for even `i < 22`. -/
def colourSequence : List CRGB :=
  (List.range 11).map fun k => ⟨colourScheme.getD (2 * k) 0, colourScheme.getD (2 * k + 1) 0, 0⟩

/-- Read `colourSequence[i]`.  An index outside `[0, COLOUR_SEQUENCE_SIZE)` is
undefined behaviour in the C program; the access-index theorems below track the
index values themselves, this total wrapper only keeps the embedding total. -/
def seqGet (i : ℤ) : CRGB := colourSequence.getD i.toNat ⟨0, 0, 0⟩

/-! ### The Mode Selector (`updateAnimationType`, lines 207-264)

`SelState` collects the five globals the selector logic reads and writes:
`flailStateLockedIn`, `flailStateDesired`, `flailStateChangeCountdown`,
`flailStateUnstableDuration` and `animationType`. -/

structure SelState where
  flailStateLockedIn : ℤ
  flailStateDesired : ℤ
  flailStateChangeCountdown : ℤ
  flailStateUnstableDuration : ℤ
  animationType : ℤ
deriving DecidableEq, Repr

/-- The decision logic of `updateAnimationType`, one evaluate call.
Returns the updated selector state paired with the emitted animation type
(`none` when `switchToAnimationType` stayed `ANIMATION_TYPE_NONE`).
`Int.tdiv` is C's truncating `/`. -/
def updateAnimationTypeSel (s : SelState) (flailStateDetected deltaTime : ℤ) :
    SelState × Option ℤ :=
  if flailStateDetected = s.flailStateLockedIn ∧ s.flailStateChangeCountdown = 0 then
    (s, none)
  else
    if flailStateDetected = s.flailStateDesired then
      let c := s.flailStateChangeCountdown - deltaTime
      if c ≤ 0 then
        let locked := s.flailStateDesired
        let target :=
          if locked = FLAIL_STATE_CLOSED then ANIMATION_TYPE_GLOW else ANIMATION_TYPE_OFFSET_CHASE
        ({ flailStateLockedIn := locked, flailStateDesired := FLAIL_STATE_UNKNOWN,
           flailStateChangeCountdown := 0, flailStateUnstableDuration := 0,
           animationType := target }, some target)
      else
        ({ s with flailStateChangeCountdown := c }, none)
    else
      let u := s.flailStateUnstableDuration +
        (1 - Int.tdiv s.flailStateChangeCountdown ANIMATION_CHANGE_COOLDOWN) * 45
      let s' := { s with flailStateDesired := flailStateDetected,
                         flailStateUnstableDuration := u,
                         flailStateChangeCountdown := ANIMATION_CHANGE_COOLDOWN }
      if u > ANIMATION_CHANGE_UNSTABLE ∧ s.animationType ≠ ANIMATION_TYPE_DECAY then
        ({ s' with animationType := ANIMATION_TYPE_DECAY }, some ANIMATION_TYPE_DECAY)
      else
        (s', none)

/-- Run the selector over a list of `(flailStateDetected, deltaTime)` evaluate
calls, collecting each call's emission. -/
def runSelector (s : SelState) : List (ℤ × ℤ) → SelState × List (Option ℤ)
  | [] => (s, [])
  | (det, dt) :: rest =>
    let step := updateAnimationTypeSel s det dt
    let tail := runSelector step.1 rest
    (tail.1, step.2 :: tail.2)

/-- Final selector state after a list of evaluate calls (emissions dropped). -/
def runSelectorState (s : SelState) (l : List (ℤ × ℤ)) : SelState :=
  (l.foldl (fun t p => (updateAnimationTypeSel t p.1 p.2).1) s)

/-- The animation type committed for a locked flail state:
`Closed → Glow`, otherwise `OffsetChase` (line 237). -/
def commitTarget (locked : ℤ) : ℤ :=
  if locked = FLAIL_STATE_CLOSED then ANIMATION_TYPE_GLOW else ANIMATION_TYPE_OFFSET_CHASE

end Bksor

namespace Bksor

/-! ### Selector helper lemmas -/

/-- C's truncating division of the leftover countdown by the 600 ms cooldown
collapses to 1 at a full cooldown and 0 everywhere else on `[0, 600]`. -/
lemma tdiv_cooldown (c : ℤ) (h0 : 0 ≤ c) (h6 : c ≤ 600) :
    Int.tdiv c ANIMATION_CHANGE_COOLDOWN = if c = 600 then 1 else 0 := by
  rw [Int.tdiv_eq_ediv h0 (by norm_num [ANIMATION_CHANGE_COOLDOWN])]
  simp only [ANIMATION_CHANGE_COOLDOWN]
  split <;> omega

/-- After a commit the selector is silent on steady input: every further
evaluate call whose detected state matches the locked state while no
countdown is pending returns immediately (lines 218-221). -/
lemma steady_locked_noop (S A : ℤ) (l : List (ℤ × ℤ)) (hl : ∀ p ∈ l, p.1 = S) :
    runSelector ⟨S, FLAIL_STATE_UNKNOWN, 0, 0, A⟩ l =
      (⟨S, FLAIL_STATE_UNKNOWN, 0, 0, A⟩, l.map fun _ => none) := by
  induction l with
  | nil => rfl
  | cons p rest ih =>
    obtain ⟨det, dt⟩ := p
    have hdet : det = S := hl (det, dt) (List.mem_cons_self _ _)
    subst hdet
    have hrest := ih fun q hq => hl q (List.mem_cons_of_mem _ hq)
    simp [runSelector, updateAnimationTypeSel, hrest]

/-- While a candidate `S` is pending with positive countdown `c` and the
input stays steady at `S`, the selector silently consumes the countdown and
commits exactly once — at the first call where the accumulated elapsed time
reaches `c` — emitting `commitTarget S` and resetting the selector. -/
lemma steady_countdown_commits (S L u A : ℤ) (hSL : S ≠ L) :
    ∀ (ds : List ℤ) (c : ℤ), 0 < c → (∀ d ∈ ds, (0:ℤ) < d) → c ≤ ds.sum →
      (runSelector ⟨L, S, c, u, A⟩ (ds.map fun d => (S, d))).1 =
          ⟨S, FLAIL_STATE_UNKNOWN, 0, 0, commitTarget S⟩ ∧
      (runSelector ⟨L, S, c, u, A⟩ (ds.map fun d => (S, d))).2.filterMap id =
          [commitTarget S]
  | [], c, hc, _, hsum => by
    exfalso
    simp only [List.sum_nil] at hsum
    omega
  | d :: ds, c, hc, hpos, hsum => by
    have hguard : ¬(S = L ∧ c = 0) := fun h => hSL h.1
    by_cases hcommit : c - d ≤ 0
    · have hstep : updateAnimationTypeSel ⟨L, S, c, u, A⟩ S d =
          (⟨S, FLAIL_STATE_UNKNOWN, 0, 0, commitTarget S⟩, some (commitTarget S)) := by
        simp [updateAnimationTypeSel, hguard, hcommit, commitTarget]
      have hrest := steady_locked_noop S (commitTarget S) (ds.map fun d => (S, d))
        (by intro p hp; rcases List.mem_map.mp hp with ⟨q, _, rfl⟩; rfl)
      simp [runSelector, hstep, hrest, List.filterMap_map]
    · push_neg at hcommit
      have hstep : updateAnimationTypeSel ⟨L, S, c, u, A⟩ S d =
          (⟨L, S, c - d, u, A⟩, none) := by
        simp [updateAnimationTypeSel, hguard, show ¬c - d ≤ 0 from by omega,
          show ¬c ≤ d from by omega]
      have hd : (0:ℤ) < d := hpos d (List.mem_cons_self _ _)
      have hsum' : c - d ≤ ds.sum := by
        simp only [List.sum_cons] at hsum
        omega
      have ih := steady_countdown_commits S L u A hSL ds (c - d) hcommit
        (fun x hx => hpos x (List.mem_cons_of_mem _ hx)) hsum'
      simp [runSelector, hstep, ih.1, ih.2]

/-! ### Claim C1 -/

/-- **C1 (amended).** From a locked state `L` with no pending candidate
(`desired = Unknown`, countdown and Instability Score zero, as after any
commit or at startup), a single flip to `S ≠ L` followed by steady `S` input
accumulating at least 600 ms produces exactly one mode transition, emitted
at the commit: Glow when `S` is Closed and **OffsetChase** (not Chase — line
237 of `updateAnimationType`) when `S` is Open; the commit sets
`locked = S`, clears `desired` to Unknown and zeroes both the Instability
Score and the countdown. -/
theorem claim_C1_amended (L S T d0 : ℤ) (ds : List ℤ)
    (hL : L = FLAIL_STATE_OPEN ∨ L = FLAIL_STATE_CLOSED)
    (hS : S = FLAIL_STATE_OPEN ∨ S = FLAIL_STATE_CLOSED)
    (hSL : S ≠ L)
    (hpos : ∀ d ∈ ds, (0:ℤ) < d) (hsum : 600 ≤ ds.sum) :
    (runSelector ⟨L, FLAIL_STATE_UNKNOWN, 0, 0, T⟩
        ((S, d0) :: ds.map fun d => (S, d))).2.filterMap id = [commitTarget S] ∧
    (runSelector ⟨L, FLAIL_STATE_UNKNOWN, 0, 0, T⟩
        ((S, d0) :: ds.map fun d => (S, d))).1 =
      ⟨S, FLAIL_STATE_UNKNOWN, 0, 0, commitTarget S⟩ := by
  have hS0 : S ≠ FLAIL_STATE_UNKNOWN := by
    rcases hS with rfl | rfl <;> decide
  have hstep : updateAnimationTypeSel ⟨L, FLAIL_STATE_UNKNOWN, 0, 0, T⟩ S d0 =
      (⟨L, S, 600, 45, T⟩, none) := by
    simp only [updateAnimationTypeSel]
    rw [if_neg (by exact fun h => hSL h.1), if_neg (by simpa using hS0)]
    norm_num [ANIMATION_CHANGE_COOLDOWN, ANIMATION_CHANGE_UNSTABLE]
  have hsteady := steady_countdown_commits S L 45 T hSL ds 600 (by norm_num) hpos hsum
  simp [runSelector, hstep, hsteady.1, hsteady.2]

/-- **C1 witness**: locked Closed, one flip to Open, one steady 600 ms call. -/
theorem claim_C1_witness :
    (runSelector ⟨FLAIL_STATE_CLOSED, FLAIL_STATE_UNKNOWN, 0, 0, ANIMATION_TYPE_GLOW⟩
        ((FLAIL_STATE_OPEN, 5) :: [(600:ℤ)].map fun d => (FLAIL_STATE_OPEN, d))).2.filterMap id
      = [commitTarget FLAIL_STATE_OPEN] ∧
    (runSelector ⟨FLAIL_STATE_CLOSED, FLAIL_STATE_UNKNOWN, 0, 0, ANIMATION_TYPE_GLOW⟩
        ((FLAIL_STATE_OPEN, 5) :: [(600:ℤ)].map fun d => (FLAIL_STATE_OPEN, d))).1 =
      ⟨FLAIL_STATE_OPEN, FLAIL_STATE_UNKNOWN, 0, 0, commitTarget FLAIL_STATE_OPEN⟩ :=
  claim_C1_amended FLAIL_STATE_CLOSED FLAIL_STATE_OPEN ANIMATION_TYPE_GLOW 5 [600]
    (Or.inr rfl) (Or.inl rfl) (by decide) (by decide) (by decide)

/-- **C1 counterexample.** As stated the claim is false: with locked Closed
and a steady flip to Open, the single emitted mode is OffsetChase, not
Chase. -/
theorem claim_C1_cex :
    (runSelector ⟨FLAIL_STATE_CLOSED, FLAIL_STATE_UNKNOWN, 0, 0, ANIMATION_TYPE_GLOW⟩
        [(FLAIL_STATE_OPEN, 5), (FLAIL_STATE_OPEN, 600)]).2.filterMap id
      = [ANIMATION_TYPE_OFFSET_CHASE] ∧
    ANIMATION_TYPE_OFFSET_CHASE ≠ ANIMATION_TYPE_CHASE := by decide

/-! ### Claim C3 -/

/-- **C3 (amended).** On a genuine flip the code computes the instability
contribution `(1 - countdown / 600) * 45` with C *integer* division, so the
amount added is 0 when the full 600 ms cooldown is leftover and exactly 45
for every smaller leftover — it is never the exact fraction, and a more
rapid flip (larger leftover) never adds strictly more. -/
theorem claim_C3_amended (s : SelState) (det dt : ℤ)
    (hflip : det ≠ s.flailStateDesired)
    (hguard : ¬(det = s.flailStateLockedIn ∧ s.flailStateChangeCountdown = 0))
    (hc0 : 0 ≤ s.flailStateChangeCountdown)
    (hc6 : s.flailStateChangeCountdown ≤ 600) :
    (updateAnimationTypeSel s det dt).1.flailStateUnstableDuration =
      s.flailStateUnstableDuration +
        (if s.flailStateChangeCountdown = 600 then 0 else 45) := by
  simp only [updateAnimationTypeSel]
  rw [if_neg hguard, if_neg hflip, tdiv_cooldown _ hc0 hc6]
  split
  · split <;> simp
  · split <;> simp

/-- **C3 witness**: a genuine flip with 300 ms leftover countdown adds 45. -/
theorem claim_C3_witness :
    (updateAnimationTypeSel ⟨FLAIL_STATE_OPEN, FLAIL_STATE_OPEN, 300, 90, ANIMATION_TYPE_GLOW⟩
        FLAIL_STATE_CLOSED 30).1.flailStateUnstableDuration =
      90 + (if (300:ℤ) = 600 then 0 else 45) :=
  claim_C3_amended ⟨FLAIL_STATE_OPEN, FLAIL_STATE_OPEN, 300, 90, ANIMATION_TYPE_GLOW⟩
    FLAIL_STATE_CLOSED 30 (by decide) (by decide) (by decide) (by decide)

/-- **C3 counterexample.** At a genuine flip with 300 ms leftover (reachable:
flip away, flip back, 300 ms steady, flip away) the code adds 45, while the
claimed exact fraction `(1 - 300/600) * 45` is 45/2. -/
theorem claim_C3_cex :
    (updateAnimationTypeSel ⟨FLAIL_STATE_OPEN, FLAIL_STATE_OPEN, 300, 90, ANIMATION_TYPE_GLOW⟩
          FLAIL_STATE_CLOSED 30).1.flailStateUnstableDuration -
        (90 : ℤ) = 45 ∧
    ((1 : ℚ) - 300 / 600) * 45 = 45 / 2 ∧ ((45 : ℚ) ≠ 45 / 2) :=
  ⟨by decide, by norm_num, by norm_num⟩

/-! ### Claim C4 -/

/-- The detected-state trace of C4: the sensor alternates every 100 ms for
4200 ms, and the selector is evaluated every 50 ms (the control loop runs
far more often than the sensor flips; 50 ms granularity keeps the trace
faithful to "flips every 100 ms"). -/
def c4Inputs (L S : ℤ) : List (ℤ × ℤ) :=
  (List.range 84).map fun k => (if (k / 2) % 2 = 0 then S else L, 50)

/-- **C4 (confirmed).** Starting locked-in with zero Instability Score in any
mode other than Decay, a sensor that alternates every 100 ms for 4200 ms
(so no 600 ms countdown ever expires) drives the Instability Score past the
350 threshold, the one and only emitted mode over the whole interval is
Decay, and no Glow/OffsetChase commit is ever emitted. -/
theorem claim_C4 (L T : ℤ)
    (hL : L = FLAIL_STATE_OPEN ∨ L = FLAIL_STATE_CLOSED)
    (hT : T ∈ [ANIMATION_TYPE_CHASE, ANIMATION_TYPE_OFFSET_CHASE, ANIMATION_TYPE_GLOW,
        ANIMATION_TYPE_CROSS, ANIMATION_TYPE_ZIPPY, ANIMATION_TYPE_ZIPPY_CROSS,
        ANIMATION_TYPE_NONE]) :
    (runSelector ⟨L, FLAIL_STATE_UNKNOWN, 0, 0, T⟩
        (c4Inputs L (if L = FLAIL_STATE_OPEN then FLAIL_STATE_CLOSED else FLAIL_STATE_OPEN))).2.filterMap id
      = [ANIMATION_TYPE_DECAY] ∧
    ANIMATION_CHANGE_UNSTABLE <
      (runSelector ⟨L, FLAIL_STATE_UNKNOWN, 0, 0, T⟩
        (c4Inputs L (if L = FLAIL_STATE_OPEN then FLAIL_STATE_CLOSED else FLAIL_STATE_OPEN))).1.flailStateUnstableDuration := by
  simp only [List.mem_cons, List.not_mem_nil, or_false] at hT
  rcases hL with rfl | rfl <;>
    rcases hT with rfl | rfl | rfl | rfl | rfl | rfl | rfl <;> decide

/-- **C4 witness**: locked Open, Glow mode. -/
theorem claim_C4_witness :
    (runSelector ⟨FLAIL_STATE_OPEN, FLAIL_STATE_UNKNOWN, 0, 0, ANIMATION_TYPE_GLOW⟩
        (c4Inputs FLAIL_STATE_OPEN
          (if FLAIL_STATE_OPEN = FLAIL_STATE_OPEN then FLAIL_STATE_CLOSED else FLAIL_STATE_OPEN))).2.filterMap id
      = [ANIMATION_TYPE_DECAY] ∧
    ANIMATION_CHANGE_UNSTABLE <
      (runSelector ⟨FLAIL_STATE_OPEN, FLAIL_STATE_UNKNOWN, 0, 0, ANIMATION_TYPE_GLOW⟩
        (c4Inputs FLAIL_STATE_OPEN
          (if FLAIL_STATE_OPEN = FLAIL_STATE_OPEN then FLAIL_STATE_CLOSED else FLAIL_STATE_OPEN))).1.flailStateUnstableDuration :=
  claim_C4 FLAIL_STATE_OPEN ANIMATION_TYPE_GLOW (Or.inl rfl) (by decide)

end Bksor

namespace Bksor

/-! ### Claim C6 — the Glow/Cross ping-pong cursor

`animationGlow` (lines 394-411) and `animationCross` (lines 417-435) end in
the textually identical cursor advance, factored here as one definition that
both render embeddings below invoke. -/

/-- The shared cursor advance of `animationGlow` and `animationCross`:
`colourSequenceIndex += glowDirection`; if a barrier is reached, the
direction is negated and the index stepped back into a valid state. -/
def advanceGlowCursor (colourSequenceIndex glowDirection : ℤ) : ℤ × ℤ :=
  let c := colourSequenceIndex + glowDirection
  if c < 0 ∨ c = COLOUR_SEQUENCE_SIZE then (c + -glowDirection, -glowDirection)
  else (c, glowDirection)

/-- Cursor/direction state in front of the n-th Glow (or Cross) frame, from
the initial state `initAnimationType` installs: cursor 0, direction up. -/
def glowStateAt (n : ℕ) : ℤ × ℤ :=
  (fun p : ℤ × ℤ => advanceGlowCursor p.1 p.2)^[n] (0, ANIMATION_DIRECTION_UP)

/-- The actual period-22 orbit of the cursor/direction pair, tabulated. -/
def glowTable (k : ℕ) : ℤ × ℤ :=
  (if k ≤ 10 then (k : ℤ) else 21 - (k : ℤ), if k ≤ 10 then 1 else -1)

/-- The cursor sequence the code actually produces:
0,1,…,9,10,10,9,…,1,0,0,1,… (period 22, each endpoint held twice). -/
def glowPingPong (n : ℕ) : ℤ :=
  if n % 22 ≤ 10 then ((n % 22 : ℕ) : ℤ) else 21 - ((n % 22 : ℕ) : ℤ)

/-- The once-per-sweep ping-pong the claim asserts (period 2M-2 = 20, each
endpoint used exactly once; for M=4 it reads 0,1,2,3,2,1,0,1,…).  Stated
from the spec's words, for comparison against `glowStateAt`. -/
def claimedPingPongOnce (n : ℕ) : ℤ :=
  if n % 20 ≤ 10 then ((n % 20 : ℕ) : ℤ) else 20 - ((n % 20 : ℕ) : ℤ)

lemma glowTable_step : ∀ k < 22,
    advanceGlowCursor (glowTable k).1 (glowTable k).2 = glowTable ((k + 1) % 22) := by
  decide

lemma glowStateAt_mod (n : ℕ) : glowStateAt n = glowTable (n % 22) := by
  induction n with
  | zero => decide
  | succ n ih =>
    have hstep := glowTable_step (n % 22) (Nat.mod_lt _ (by norm_num))
    calc glowStateAt (n + 1)
        = advanceGlowCursor (glowStateAt n).1 (glowStateAt n).2 := by
          simp only [glowStateAt, Function.iterate_succ_apply']
      _ = glowTable ((n % 22 + 1) % 22) := by rw [ih, hstep]
      _ = glowTable ((n + 1) % 22) := by rw [show (n % 22 + 1) % 22 = (n + 1) % 22 from by omega]

lemma glowTable_props : ∀ k < 22,
    (0 ≤ (glowTable k).1 ∧ (glowTable k).1 < COLOUR_SEQUENCE_SIZE) ∧
    ((glowTable ((k + 1) % 22)).2 ≠ (glowTable k).2 ↔
      ((glowTable k).1 = COLOUR_SEQUENCE_SIZE - 1 ∧ (glowTable k).2 = ANIMATION_DIRECTION_UP) ∨
      ((glowTable k).1 = 0 ∧ (glowTable k).2 = ANIMATION_DIRECTION_DOWN)) := by
  decide

/-- **C6 (amended).** For the Glow and Cross renders from the initial
cursor state (0, up): the cursor never leaves `[0, M)`; the direction sign
flips exactly at the frames whose cursor sits at an endpoint (0 or M-1)
with the direction still pointing outward; and the cursor sequence across
successive frames is the period-2M ping-pong that, for M = 4, reads
0,1,2,3,3,2,1,0,0,1,… — each endpoint is used exactly **twice** per sweep
cycle (the code first steps out of range and then steps straight back),
not once as claimed. -/
theorem claim_C6_amended (n : ℕ) :
    (0 ≤ (glowStateAt n).1 ∧ (glowStateAt n).1 < COLOUR_SEQUENCE_SIZE) ∧
    (glowStateAt n).1 = glowPingPong n ∧
    ((glowStateAt (n + 1)).2 ≠ (glowStateAt n).2 ↔
      ((glowStateAt n).1 = COLOUR_SEQUENCE_SIZE - 1 ∧
        (glowStateAt n).2 = ANIMATION_DIRECTION_UP) ∨
      ((glowStateAt n).1 = 0 ∧ (glowStateAt n).2 = ANIMATION_DIRECTION_DOWN)) := by
  have h := glowTable_props (n % 22) (Nat.mod_lt _ (by norm_num))
  rw [glowStateAt_mod n, glowStateAt_mod (n + 1),
    show (n + 1) % 22 = (n % 22 + 1) % 22 from by omega]
  exact ⟨h.1, by simp only [glowTable, glowPingPong], h.2⟩

/-- **C6 counterexample.** The code's cursor holds the top endpoint for two
successive frames (frames 10 and 11 both use cursor 10), so the emitted
sequence is not the claimed once-per-sweep ping-pong, which would place
cursor 9 at frame 11. -/
theorem claim_C6_cex :
    (glowStateAt 10).1 = 10 ∧ (glowStateAt 11).1 = 10 ∧
    claimedPingPongOnce 11 = 9 ∧ (glowStateAt 11).1 ≠ claimedPingPongOnce 11 := by
  decide

end Bksor

namespace Bksor

/-! ### Claim C2 — array access indices of `animationZippy` (lines 441-468)

`zippyAccesses` tabulates, for one render call in cursor state
(`zippyDirection`, `zippyAnimateIndex`), the triple
(`leftLEDStripWriteIndex`, `rightLEDStripWriteIndex`,
`colourSequenceReadIndex`) of every loop iteration, mirroring the loop
arithmetic verbatim: the full render below replays exactly these writes. -/

def zippyAccesses (zippyDirection zippyAnimateIndex : ℤ) (oppositeStrips : Bool) :
    List (ℤ × ℤ × ℤ) :=
  let readColourIndexStart :=
    if zippyAnimateIndex ≥ LEDS_PER_STRIP then zippyAnimateIndex - 13 else 0
  let leftStart :=
    if zippyDirection = ANIMATION_DIRECTION_UP then min 13 zippyAnimateIndex
    else max (13 - zippyAnimateIndex) 0
  let writeAdvance := -zippyDirection
  (List.range (zippyAnimateIndex - readColourIndexStart + 1).toNat).map fun k =>
    let i := readColourIndexStart + (k : ℤ)
    let leftLEDStripWriteIndex := leftStart + writeAdvance * (k : ℤ)
    let rightLEDStripWriteIndex :=
      if oppositeStrips then RIGHT_STRIP_INDEX + leftLEDStripWriteIndex
      else 27 - leftLEDStripWriteIndex
    (leftLEDStripWriteIndex, rightLEDStripWriteIndex, min i 13)

/-- **C2 (code bug).** Over every reachable Zippy cursor state
(`zippyAnimateIndex ∈ [0, 30)`, both directions, both strip variants) all
LED-buffer write indices do stay inside `[0, 28)` — but the colour-sequence
read index is `min(i, 13)` against a table of size 11, so from
`zippyAnimateIndex = 11` on the render reads `colourSequence[11..13]`,
outside `[0, COLOUR_SEQUENCE_SIZE)`. -/
theorem claim_C2_bug :
    ((List.range 30).all fun n =>
        [ANIMATION_DIRECTION_UP, ANIMATION_DIRECTION_DOWN].all fun dir =>
          [true, false].all fun opp =>
            (zippyAccesses dir (n : ℤ) opp).all fun a =>
              decide (0 ≤ a.1 ∧ a.1 < NUM_ANIMATION_LEDS ∧
                0 ≤ a.2.1 ∧ a.2.1 < NUM_ANIMATION_LEDS)) = true ∧
    (11 : ℤ) ∈ (zippyAccesses ANIMATION_DIRECTION_UP 11 false).map (fun a => a.2.2) ∧
    ¬((11 : ℤ) < COLOUR_SEQUENCE_SIZE) := by
  refine ⟨by decide, by decide, by decide⟩

/-! ### Claim C7 — the OffsetChase phase-shifted colour index -/

/-- `rightLEDStripColourIndex` of `animationChase(true)` in the final
revision (bksor_chaser.ino lines 364-375): add the short offset, wrap as
soon as the index *reaches* the sequence size (`>=`). -/
def chaseRightColourIndex (colourSequenceIndex : ℤ) : ℤ :=
  let rightLEDStripColourIndex := colourSequenceIndex + COLOUR_SEQUENCE_SIZE_SHORT
  if rightLEDStripColourIndex ≥ COLOUR_SEQUENCE_SIZE then
    rightLEDStripColourIndex - (COLOUR_SEQUENCE_SIZE - 1)
  else rightLEDStripColourIndex

/-- The same computation in the earlier revisions
(src/unnamed/part_001 lines 268-279; identically part_000 lines 304-309 and
part_002 lines 199-204): literal offset 7 and wrap only when the index
*exceeds* the size (`>`), so 11 slips through. -/
def chaseRightColourIndexP001 (colourSequenceIndex : ℤ) : ℤ :=
  let rightLEDStripColourIndex := colourSequenceIndex + 7
  if rightLEDStripColourIndex > COLOUR_SEQUENCE_SIZE then
    rightLEDStripColourIndex - (COLOUR_SEQUENCE_SIZE - 1)
  else rightLEDStripColourIndex

/-- **C7 (code bug).** In the final revision the wrapped offset index stays
inside `[0, M)` for every cursor in `[0, M)`; but in the part_001 revision
(and the two other early revisions, which share the `>` comparison) cursor 4
yields offset index 11 = M, an out-of-bounds `colourSequence` read, so the
claim's "holds in every revision" fails. -/
theorem claim_C7_bug :
    ((List.range 11).all fun c =>
        decide (0 ≤ chaseRightColourIndex (c : ℤ) ∧
          chaseRightColourIndex (c : ℤ) < COLOUR_SEQUENCE_SIZE)) = true ∧
    chaseRightColourIndexP001 4 = 11 ∧
    ¬(chaseRightColourIndexP001 4 < COLOUR_SEQUENCE_SIZE) := by
  refine ⟨by decide, by decide, by decide⟩

end Bksor

namespace Bksor

/-! ### Claim C5 — per-LED Decay state (`animationDecay`, lines 474-498)

Each LED `i` owns `decayActiveDelays[i]`, `decayResetDelays[i]` and
`decayColourIndexes[i]`; `animationDecay` updates every LED independently,
so the per-LED update is factored out here (the full-strip render below
maps it over the 28 LEDs).  `rand` stands for the `random(0, 6)` draw
consumed on a wrap; unused draws are simply not consumed. -/

structure DecayLED where
  decayActiveDelay : ℤ
  decayResetDelay : ℤ
  decayColourIndex : ℤ
deriving DecidableEq, Repr

/-- One elapsed-time update of a single Decay LED: subtract the elapsed
time from the countdown; while it stays positive nothing happens; otherwise
advance the colour index, wrap `10 → 0` drawing a fresh hold duration
`35 + rand*5`, and reload the countdown from the (possibly new) reset. -/
def decayLEDStep (s : DecayLED) (deltaTime rand : ℤ) : DecayLED :=
  if s.decayActiveDelay - deltaTime > 0 then
    { s with decayActiveDelay := s.decayActiveDelay - deltaTime }
  else if s.decayColourIndex + 1 = 10 then
    { decayActiveDelay := 35 + rand * 5, decayResetDelay := 35 + rand * 5,
      decayColourIndex := 0 }
  else
    { decayActiveDelay := s.decayResetDelay, decayResetDelay := s.decayResetDelay,
      decayColourIndex := s.decayColourIndex + 1 }

/-- Trajectory of one Decay LED under 1 ms elapsed-time updates, with `r n`
the random draw available to the n-th update. -/
def decayTraceAt (s : DecayLED) (r : ℕ → ℤ) : ℕ → DecayLED
  | 0 => s
  | n + 1 => decayLEDStep (decayTraceAt s r n) 1 (r n)

/-- Characterisation of the reachable per-LED Decay states: the colour
index sits in `[0, 10)` (`initAnimationType` draws `random(0, 9)` and the
step wraps at 10), the reset delay is one of the drawn holds
`35 + random(0,6)*5 ∈ [35, 60]`, and the countdown is positive and at most
the reset. -/
def DecayValid (s : DecayLED) : Prop :=
  0 ≤ s.decayColourIndex ∧ s.decayColourIndex < 10 ∧
  0 < s.decayActiveDelay ∧ s.decayActiveDelay ≤ s.decayResetDelay ∧
  35 ≤ s.decayResetDelay ∧ s.decayResetDelay ≤ 60

/-- The random oracle delivers `random(0, 6)` draws. -/
def DecayStreamOK (r : ℕ → ℤ) : Prop := ∀ n, 0 ≤ r n ∧ r n < 6

instance decayValidDecidable (s : DecayLED) : Decidable (DecayValid s) := by
  unfold DecayValid
  infer_instance

lemma decayLEDStep_shape (s : DecayLED) (dt rr : ℤ) (hs : DecayValid s) :
    (decayLEDStep s dt rr).decayColourIndex = s.decayColourIndex ∨
    (decayLEDStep s dt rr).decayColourIndex = (s.decayColourIndex + 1) % 10 := by
  obtain ⟨h1, h2, -⟩ := hs
  unfold decayLEDStep
  split_ifs with h h'
  · exact Or.inl rfl
  · refine Or.inr ?_
    dsimp only
    rw [h']
    decide
  · refine Or.inr ?_
    dsimp only
    exact (Int.emod_eq_of_lt (by omega) (by omega)).symm

lemma decayLEDStep_valid (s : DecayLED) (dt rr : ℤ) (hs : DecayValid s)
    (hdt : 0 ≤ dt) (hrr : 0 ≤ rr ∧ rr < 6) :
    DecayValid (decayLEDStep s dt rr) := by
  obtain ⟨h1, h2, h3, h4, h5, h6⟩ := hs
  obtain ⟨hr0, hr6⟩ := hrr
  unfold DecayValid decayLEDStep
  split_ifs with h h' <;> dsimp only <;> omega

lemma decayLEDStep_fire (s : DecayLED) (dt rr : ℤ) (hs : DecayValid s)
    (hfire : s.decayActiveDelay - dt ≤ 0) :
    (decayLEDStep s dt rr).decayColourIndex = (s.decayColourIndex + 1) % 10 ∧
    (decayLEDStep s dt rr).decayActiveDelay = (decayLEDStep s dt rr).decayResetDelay := by
  obtain ⟨h1, h2, -⟩ := hs
  unfold decayLEDStep
  rw [if_neg (by omega)]
  split_ifs with h
  · refine ⟨?_, rfl⟩
    dsimp only
    rw [h]
    decide
  · refine ⟨?_, rfl⟩
    dsimp only
    exact (Int.emod_eq_of_lt (by omega) (by omega)).symm

lemma decayTraceAt_add (s : DecayLED) (r : ℕ → ℤ) (m t : ℕ) :
    decayTraceAt s r (m + t) = decayTraceAt (decayTraceAt s r m) (fun n => r (n + m)) t := by
  induction t with
  | zero => rfl
  | succ t ih =>
    rw [Nat.add_succ]
    simp only [decayTraceAt, ih, Nat.add_comm t m]

/-- Before the countdown runs out nothing but the countdown changes. -/
lemma decayTrace_pre (s : DecayLED) (r : ℕ → ℤ) :
    ∀ k : ℕ, (k : ℤ) < s.decayActiveDelay →
      decayTraceAt s r k = { s with decayActiveDelay := s.decayActiveDelay - k } := by
  intro k
  induction k with
  | zero => intro _; simp [decayTraceAt]
  | succ k ih =>
    intro hk
    push_cast at hk
    have hk' : (k : ℤ) < s.decayActiveDelay := by omega
    rw [decayTraceAt, ih hk']
    unfold decayLEDStep
    split_ifs with h h2
    · dsimp only
      congr 1
      push_cast
      ring
    all_goals exfalso; dsimp only at h; omega

/-- From any valid state the first colour-index advance happens after
exactly `decayActiveDelay` one-millisecond updates, landing in a valid
state whose index moved one step forward (mod 10). -/
lemma decay_first_advance (s : DecayLED) (r : ℕ → ℤ) (hs : DecayValid s)
    (hr : DecayStreamOK r) :
    DecayValid (decayTraceAt s r s.decayActiveDelay.toNat) ∧
    (decayTraceAt s r s.decayActiveDelay.toNat).decayColourIndex =
      (s.decayColourIndex + 1) % 10 := by
  obtain ⟨h1, h2, h3, h4, h5, h6⟩ := hs
  obtain ⟨a, hae⟩ : ∃ a : ℕ, s.decayActiveDelay.toNat = a + 1 :=
    ⟨s.decayActiveDelay.toNat - 1, by omega⟩
  have hA : s.decayActiveDelay = (a : ℤ) + 1 := by
    have ht := Int.toNat_of_nonneg (le_of_lt h3)
    omega
  rw [hae]
  have hpre : decayTraceAt s r a = { s with decayActiveDelay := s.decayActiveDelay - a } :=
    decayTrace_pre s r a (by omega)
  have hsv : DecayValid { s with decayActiveDelay := s.decayActiveDelay - a } :=
    ⟨h1, h2, by dsimp only; omega, by dsimp only; omega, h5, h6⟩
  have hfire : ({ s with decayActiveDelay := s.decayActiveDelay - (a : ℤ) } : DecayLED).decayActiveDelay
      - 1 ≤ 0 := by
    dsimp only
    omega
  rw [decayTraceAt, hpre]
  exact ⟨decayLEDStep_valid _ 1 (r a) hsv (by norm_num) (hr a),
    (decayLEDStep_fire _ 1 (r a) hsv hfire).1⟩

/-- Coverage: within `60 * m` one-millisecond updates the colour index
reaches every value whose forward distance (mod 10) from the current index
is below `m`. -/
lemma decay_cover : ∀ (m : ℕ) (s : DecayLED) (r : ℕ → ℤ), DecayValid s → DecayStreamOK r →
    ∀ v : ℤ, 0 ≤ v → v < 10 → (v - s.decayColourIndex) % 10 < (m : ℤ) →
      ∃ n ≤ 60 * m, (decayTraceAt s r n).decayColourIndex = v := by
  intro m
  induction m with
  | zero =>
    intro s r hs hr v hv0 hv10 hdist
    exfalso
    have := Int.emod_nonneg (v - s.decayColourIndex) (by norm_num : (10:ℤ) ≠ 0)
    simp at hdist
    omega
  | succ m ih =>
    intro s r hs hr v hv0 hv10 hdist
    by_cases h0 : (v - s.decayColourIndex) % 10 = 0
    · refine ⟨0, Nat.zero_le _, ?_⟩
      obtain ⟨h1, h2, -⟩ := hs
      show s.decayColourIndex = v
      omega
    · obtain ⟨hval1, hadv⟩ := decay_first_advance s r hs hr
      have ha60 : s.decayActiveDelay.toNat ≤ 60 := by
        obtain ⟨-, -, -, h4, -, h6⟩ := hs
        omega
      have hr1 : DecayStreamOK (fun n => r (n + s.decayActiveDelay.toNat)) := fun n => hr _
      have hdist1 : (v - (decayTraceAt s r s.decayActiveDelay.toNat).decayColourIndex) % 10
          < (m : ℤ) := by
        rw [hadv]
        obtain ⟨h1, h2, -⟩ := hs
        push_cast at hdist ⊢
        omega
      obtain ⟨n, hn, hfound⟩ := ih (decayTraceAt s r s.decayActiveDelay.toNat)
        (fun n => r (n + s.decayActiveDelay.toNat)) hval1 hr1 v hv0 hv10 hdist1
      refine ⟨s.decayActiveDelay.toNat + n, by omega, ?_⟩
      rw [decayTraceAt_add]
      exact hfound

/-- **C5 (amended).** For a single Decay LED in any reachable state, with
any admissible `random(0, 6)` draws: (1) an elapsed-time update — however
large its `deltaTime`, even with the countdown far below zero — either
leaves the colour index unchanged or advances it exactly one step forward,
wrapping `10 → 0` (so the index walks `[0, 10)` in increasing order; the
last table entry, index 10, is **never** visited, contrary to the claimed
`[0, 11)`); (2) whenever the update fires, the countdown is reloaded from
the (possibly new) reset value, a wrap draws the new hold `35 + rand*5` and
a plain advance keeps the old one; and (3) across 600 one-millisecond
updates — 10 times the maximum 60 ms hold; fine-grained updates, since a
single huge update advances only once — the index visits every value of
`[0, 10)`. -/
theorem claim_C5_amended (s : DecayLED) (r : ℕ → ℤ) (dt rr v : ℤ)
    (hs : DecayValid s) (hr : DecayStreamOK r)
    (hv : 0 ≤ v ∧ v < 10) :
    ((decayLEDStep s dt rr).decayColourIndex = s.decayColourIndex ∨
      (decayLEDStep s dt rr).decayColourIndex = (s.decayColourIndex + 1) % 10) ∧
    (s.decayActiveDelay - dt ≤ 0 →
      (decayLEDStep s dt rr).decayActiveDelay = (decayLEDStep s dt rr).decayResetDelay ∧
      (s.decayColourIndex + 1 = 10 →
        (decayLEDStep s dt rr).decayResetDelay = 35 + rr * 5) ∧
      (s.decayColourIndex + 1 ≠ 10 →
        (decayLEDStep s dt rr).decayResetDelay = s.decayResetDelay)) ∧
    (∃ n ≤ 600, (decayTraceAt s r n).decayColourIndex = v) := by
  refine ⟨decayLEDStep_shape s dt rr hs, ?_, ?_⟩
  · intro hfire
    refine ⟨(decayLEDStep_fire s dt rr hs hfire).2, ?_, ?_⟩
    · intro hwrap
      unfold decayLEDStep
      rw [if_neg (by omega), if_pos hwrap]
    · intro hnowrap
      unfold decayLEDStep
      rw [if_neg (by omega), if_neg hnowrap]
  · have hdist : (v - s.decayColourIndex) % 10 < ((10 : ℕ) : ℤ) := by
      have := Int.emod_lt_of_pos (v - s.decayColourIndex) (by norm_num : (0:ℤ) < 10)
      push_cast
      omega
    simpa using decay_cover 10 s r hs hr v hv.1 hv.2 hdist

/-- **C5 witness**: the freshly wrapped LED state (index 0, hold 35), the
all-zero draw stream, a huge 1000 ms update, target index 7. -/
theorem claim_C5_witness :
    ((decayLEDStep ⟨35, 35, 0⟩ 1000 0).decayColourIndex = (⟨35, 35, 0⟩ : DecayLED).decayColourIndex ∨
      (decayLEDStep ⟨35, 35, 0⟩ 1000 0).decayColourIndex =
        ((⟨35, 35, 0⟩ : DecayLED).decayColourIndex + 1) % 10) ∧
    ((⟨35, 35, 0⟩ : DecayLED).decayActiveDelay - 1000 ≤ 0 →
      (decayLEDStep ⟨35, 35, 0⟩ 1000 0).decayActiveDelay =
        (decayLEDStep ⟨35, 35, 0⟩ 1000 0).decayResetDelay ∧
      ((⟨35, 35, 0⟩ : DecayLED).decayColourIndex + 1 = 10 →
        (decayLEDStep ⟨35, 35, 0⟩ 1000 0).decayResetDelay = 35 + 0 * 5) ∧
      ((⟨35, 35, 0⟩ : DecayLED).decayColourIndex + 1 ≠ 10 →
        (decayLEDStep ⟨35, 35, 0⟩ 1000 0).decayResetDelay =
          (⟨35, 35, 0⟩ : DecayLED).decayResetDelay)) ∧
    (∃ n ≤ 600, (decayTraceAt ⟨35, 35, 0⟩ (fun _ => 0) n).decayColourIndex = 7) :=
  claim_C5_amended ⟨35, 35, 0⟩ (fun _ => 0) 1000 0 7 (by decide)
    (fun _ => ⟨Int.le_refl 0, by norm_num⟩) ⟨by norm_num, by norm_num⟩

/-- The colour-index trajectory of one Decay LED over 600 one-millisecond
updates (35 ms holds, all-zero draws): a concrete run totalling 600 ms,
10 times the maximum hold time. -/
def decayIndexTrace600 : List ℤ :=
  (List.scanl (fun s _ => decayLEDStep s 1 0) (⟨35, 35, 0⟩ : DecayLED) (List.range 600)).map
    fun s => s.decayColourIndex

set_option maxRecDepth 100000 in
set_option maxHeartbeats 1000000 in
/-- **C5 counterexample.** Across this valid 600 ms run the colour index
never takes the value 10, so it does not visit every value of `[0, 11)` as
claimed: the code wraps the index to 0 the moment it reaches 10. -/
theorem claim_C5_cex : DecayValid ⟨35, 35, 0⟩ ∧ (10 : ℤ) ∉ decayIndexTrace600 :=
  ⟨by decide, by decide⟩

end Bksor

namespace Bksor

/-! ### The full program state and the Animation Engine

`ProgState` collects every global of bksor_chaser.ino.  The three decay
arrays and the LED buffer are lists of fixed length 28. -/

structure ProgState where
  animationType : ℤ
  animationTypeDelay : ℤ
  animationDelay : ℤ
  flailStateLockedIn : ℤ
  flailStateDesired : ℤ
  flailStateChangeCountdown : ℤ
  flailStateUnstableDuration : ℤ
  colourSequenceIndex : ℤ
  glowDirection : ℤ
  zippyDirection : ℤ
  zippyAnimateIndex : ℤ
  decayActiveDelays : List ℤ
  decayResetDelays : List ℤ
  decayColourIndexes : List ℤ
  leds : List CRGB
deriving DecidableEq, Repr

/-- The globals right after `setup()`: C zero-initialisation plus the
explicit initialisers of lines 75-77 and 97-105, and the `resetLEDState()`
call in `setup()`. -/
def initialProgState : ProgState where
  animationType := ANIMATION_TYPE_NONE
  animationTypeDelay := 0
  animationDelay := 0
  flailStateLockedIn := FLAIL_STATE_UNKNOWN
  flailStateDesired := FLAIL_STATE_UNKNOWN
  flailStateChangeCountdown := 0
  flailStateUnstableDuration := 0
  colourSequenceIndex := 0
  glowDirection := ANIMATION_DIRECTION_UP
  zippyDirection := ANIMATION_DIRECTION_UP
  zippyAnimateIndex := 0
  decayActiveDelays := List.replicate 28 0
  decayResetDelays := List.replicate 28 0
  decayColourIndexes := List.replicate 28 0
  leds := List.replicate 28 ⟨0, 0, 0⟩

/-- `resetLEDState()` (lines 338-344): all 28 LEDs to black. -/
def resetLEDState (s : ProgState) : ProgState :=
  { s with leds := List.replicate 28 ⟨0, 0, 0⟩ }

/-- `animationChase` (lines 350-388).  The two shift loops are replayed as
left folds over the C loop ranges (reads see earlier writes exactly as the
in-place loops do); the offset index is `chaseRightColourIndex`. -/
def animationChase (animateWithOffset : Bool) (s : ProgState) : ProgState :=
  let leds1 := ((List.range 13).reverse).foldl
    (fun a i => a.set (i + 1) (a.getD i ⟨0, 0, 0⟩)) s.leds
  let leds2 := (List.range 13).foldl
    (fun a i => a.set (14 + i) (a.getD (14 + i + 1) ⟨0, 0, 0⟩)) leds1
  let rightLEDStripColourIndex :=
    if animateWithOffset then chaseRightColourIndex s.colourSequenceIndex
    else s.colourSequenceIndex
  let leds3 :=
    (leds2.set 0 (seqGet s.colourSequenceIndex)).set 27 (seqGet rightLEDStripColourIndex)
  let next := s.colourSequenceIndex + 1
  { s with leds := leds3,
           colourSequenceIndex := if next = COLOUR_SEQUENCE_SIZE then 0 else next }

/-- `animationGlow` (lines 394-411): one colour to all LEDs, then the
shared ping-pong cursor advance. -/
def animationGlow (s : ProgState) : ProgState :=
  let p := advanceGlowCursor s.colourSequenceIndex s.glowDirection
  { s with leds := List.replicate 28 (seqGet s.colourSequenceIndex),
           colourSequenceIndex := p.1, glowDirection := p.2 }

/-- `animationCross` (lines 417-435): left strip reads the cursor, right
strip the mirrored index, then the shared ping-pong cursor advance. -/
def animationCross (s : ProgState) : ProgState :=
  let inverseColourSequenceIndex := (COLOUR_SEQUENCE_SIZE - 1) - s.colourSequenceIndex
  let p := advanceGlowCursor s.colourSequenceIndex s.glowDirection
  { s with
    leds := (List.range 28).map fun i =>
      if i < 14 then seqGet s.colourSequenceIndex else seqGet inverseColourSequenceIndex,
    colourSequenceIndex := p.1, glowDirection := p.2 }

/-- `animationZippy` (lines 441-468): replay the write/read accesses of
`zippyAccesses`, then advance the bounce index, flipping at 30. -/
def animationZippy (oppositeStrips : Bool) (s : ProgState) : ProgState :=
  let leds1 := (zippyAccesses s.zippyDirection s.zippyAnimateIndex oppositeStrips).foldl
    (fun a acc => (a.set acc.1.toNat (seqGet acc.2.2)).set acc.2.1.toNat (seqGet acc.2.2)) s.leds
  let next := s.zippyAnimateIndex + 1
  if next = 30 then
    { s with leds := leds1, zippyAnimateIndex := 0, zippyDirection := -s.zippyDirection }
  else
    { s with leds := leds1, zippyAnimateIndex := next }

/-- `animationDecay` (lines 474-498): every LED updated independently by
`decayLEDStep`; a fired LED shows the colour of its advanced index, an
unfired one keeps its colour.  `r i` is the `random(0, 6)` draw LED `i`
would consume on a wrap. -/
def animationDecay (s : ProgState) (deltaTime : ℤ) (r : ℕ → ℤ) : ProgState :=
  let cell : ℕ → DecayLED := fun i =>
    ⟨s.decayActiveDelays.getD i 0, s.decayResetDelays.getD i 0, s.decayColourIndexes.getD i 0⟩
  let stepCell : ℕ → DecayLED := fun i => decayLEDStep (cell i) deltaTime (r i)
  { s with
    decayActiveDelays := (List.range 28).map fun i => (stepCell i).decayActiveDelay,
    decayResetDelays := (List.range 28).map fun i => (stepCell i).decayResetDelay,
    decayColourIndexes := (List.range 28).map fun i => (stepCell i).decayColourIndex,
    leds := (List.range 28).map fun i =>
      if (cell i).decayActiveDelay - deltaTime > 0 then s.leds.getD i ⟨0, 0, 0⟩
      else seqGet (stepCell i).decayColourIndex }

/-- `initAnimationType` (lines 270-332).  In the Decay branch `r (2*i)` is
LED i's `random(0, 6)` hold draw and `r (2*i+1)` its `random(0, 9)`
starting-index draw. -/
def initAnimationType (animType : ℤ) (s : ProgState) (r : ℕ → ℤ) : ProgState :=
  if animType = ANIMATION_TYPE_CHASE then
    { s with animationDelay := ANIMATION_DELAY_CHASE,
             animationTypeDelay := ANIMATION_DELAY_CHASE, colourSequenceIndex := 0 }
  else if animType = ANIMATION_TYPE_OFFSET_CHASE then
    { s with animationDelay := ANIMATION_DELAY_OFFSET_CHASE,
             animationTypeDelay := ANIMATION_DELAY_OFFSET_CHASE, colourSequenceIndex := 0 }
  else if animType = ANIMATION_TYPE_GLOW then
    { s with animationDelay := ANIMATION_DELAY_GLOW,
             animationTypeDelay := ANIMATION_DELAY_GLOW, colourSequenceIndex := 0,
             glowDirection := ANIMATION_DIRECTION_UP }
  else if animType = ANIMATION_TYPE_CROSS then
    { s with animationDelay := ANIMATION_DELAY_CROSS,
             animationTypeDelay := ANIMATION_DELAY_CROSS, colourSequenceIndex := 0,
             glowDirection := ANIMATION_DIRECTION_UP }
  else if animType = ANIMATION_TYPE_ZIPPY then
    { s with animationDelay := ANIMATION_DELAY_ZIPPY,
             animationTypeDelay := ANIMATION_DELAY_ZIPPY,
             zippyDirection := ANIMATION_DIRECTION_UP, zippyAnimateIndex := 0 }
  else if animType = ANIMATION_TYPE_ZIPPY_CROSS then
    { s with animationDelay := ANIMATION_DELAY_ZIPPY_CROSS,
             animationTypeDelay := ANIMATION_DELAY_ZIPPY_CROSS,
             zippyDirection := ANIMATION_DIRECTION_UP, zippyAnimateIndex := 0 }
  else if animType = ANIMATION_TYPE_DECAY then
    { s with animationDelay := ANIMATION_DELAY_DECAY,
             animationTypeDelay := ANIMATION_DELAY_DECAY,
             decayActiveDelays := (List.range 28).map fun i => 35 + r (2 * i) * 5,
             decayResetDelays := (List.range 28).map fun i => 35 + r (2 * i) * 5,
             decayColourIndexes := (List.range 28).map fun i => r (2 * i + 1) }
  else s

/-- The unguarded frame body of `updateAnimation` (lines 164-200 past the
early return): subtract the elapsed time, dispatch the active render, and
add back the per-kind frame delay. -/
def runAnimFrame (s : ProgState) (deltaTime : ℤ) (r : ℕ → ℤ) : ProgState :=
  let s0 := { s with animationDelay := s.animationDelay - deltaTime }
  let s1 :=
    if s0.animationType = ANIMATION_TYPE_CHASE then animationChase false s0
    else if s0.animationType = ANIMATION_TYPE_OFFSET_CHASE then animationChase true s0
    else if s0.animationType = ANIMATION_TYPE_GLOW then animationGlow s0
    else if s0.animationType = ANIMATION_TYPE_CROSS then animationCross s0
    else if s0.animationType = ANIMATION_TYPE_ZIPPY then animationZippy false s0
    else if s0.animationType = ANIMATION_TYPE_ZIPPY_CROSS then animationZippy true s0
    else if s0.animationType = ANIMATION_TYPE_DECAY then animationDecay s0 deltaTime r
    else s0
  { s1 with animationDelay := s1.animationDelay + s1.animationTypeDelay }

/-- `updateAnimation` (lines 162-201): early-return while the accumulated
delay is still positive, else render a frame (`FastLED.show` is a pure
hardware flush and drops out of the model). -/
def updateAnimation (s : ProgState) (deltaTime : ℤ) (r : ℕ → ℤ) : ProgState :=
  if s.animationDelay - deltaTime > 0 then
    { s with animationDelay := s.animationDelay - deltaTime }
  else runAnimFrame s deltaTime r

/-- `updateAnimationType` (lines 207-264) on the full state: run the
selector decision logic, and on an emission install the new animation type,
initialise it and clear the LED buffer. -/
def updateAnimationTypeFull (p : ProgState) (flailStateDetected deltaTime : ℤ)
    (r : ℕ → ℤ) : ProgState :=
  let sel : SelState := ⟨p.flailStateLockedIn, p.flailStateDesired,
    p.flailStateChangeCountdown, p.flailStateUnstableDuration, p.animationType⟩
  let step := updateAnimationTypeSel sel flailStateDetected deltaTime
  let p' := { p with flailStateLockedIn := step.1.flailStateLockedIn,
                     flailStateDesired := step.1.flailStateDesired,
                     flailStateChangeCountdown := step.1.flailStateChangeCountdown,
                     flailStateUnstableDuration := step.1.flailStateUnstableDuration,
                     animationType := step.1.animationType }
  match step.2 with
  | none => p'
  | some t => resetLEDState (initAnimationType t p' r)

/-- One iteration of `loop()` (lines 145-156): render update, then
selector evaluate, with the same frame delta. -/
def loopStep (p : ProgState) (flailStateDetected deltaTime : ℤ) (r : ℕ → ℤ) : ProgState :=
  updateAnimationTypeFull (updateAnimation p deltaTime r) flailStateDetected deltaTime r

end Bksor

namespace Bksor

/-! ### Claims C9 and C10 — the frame-delay guard -/

/-- **C9 (amended).** A zero-elapsed-time update leaves the LED buffer
unchanged **whenever the accumulated delay countdown is positive on
entry** — the early return of lines 164-169 fires before any render.  (The
unqualified claim is false: when the countdown is already ≤ 0, reachable
after a lagging frame or in Decay/None modes whose frame delay is 0, the
render fires even with zero elapsed time; see the counterexample.) -/
theorem claim_C9_amended (s : ProgState) (r : ℕ → ℤ)
    (h : 0 < s.animationDelay) :
    (updateAnimation s 0 r).leds = s.leds := by
  unfold updateAnimation
  rw [if_pos (by omega)]

/-- **C9 witness**: any state with a 5 ms delay countdown pending. -/
theorem claim_C9_witness :
    (updateAnimation { initialProgState with animationDelay := 5 } 0 (fun _ => 0)).leds =
      ({ initialProgState with animationDelay := 5 } : ProgState).leds :=
  claim_C9_amended { initialProgState with animationDelay := 5 } (fun _ => 0) (by norm_num)

/-- Freshly initialised Glow state (as installed by a mode switch). -/
def c9State0 : ProgState :=
  resetLEDState (initAnimationType ANIMATION_TYPE_GLOW
    { initialProgState with animationType := ANIMATION_TYPE_GLOW } (fun _ => 0))

/-- `c9State0` after one lagging 90 ms frame: the render fired and the
accumulated delay came back to exactly 0. -/
def c9State1 : ProgState := updateAnimation c9State0 90 (fun _ => 0)

set_option maxRecDepth 8000 in
/-- **C9 counterexample.** `c9State1` is reachable (two steps from a mode
switch to Glow) and its delay countdown is 0, so a zero-elapsed-time update
renders again and repaints the whole buffer with the next glow colour: the
buffer changes. -/
theorem claim_C9_cex :
    c9State1.animationDelay = 0 ∧
    (updateAnimation c9State1 0 (fun _ => 0)).leds ≠ c9State1.leds := by
  refine ⟨by decide, by decide⟩

/-- Projections of `animationDecay`: the render touches only the decay
arrays and the LED buffer, never the delay bookkeeping. -/
lemma animationDecay_delay (s : ProgState) (dt : ℤ) (r : ℕ → ℤ) :
    (animationDecay s dt r).animationDelay = s.animationDelay ∧
    (animationDecay s dt r).animationTypeDelay = s.animationTypeDelay :=
  ⟨rfl, rfl⟩

/-- **C10 (confirmed).** While the active mode is Decay the accumulated
animation delay is ≤ 0 at every delay check: `initAnimationType` installs
delay 0 and frame-delay constant 0, the guard `animationDelay > 0` then
never fires, so `updateAnimation` always takes the full render path
(`runAnimFrame`, which runs `animationDecay`), and the post-render
increment adds 0, keeping the delay ≤ 0 — Decay renders on every loop
iteration and its pacing is governed solely by the per-LED countdowns. -/
theorem claim_C10 (s : ProgState) (dt : ℤ) (r : ℕ → ℤ)
    (htype : s.animationType = ANIMATION_TYPE_DECAY)
    (hdelay : s.animationDelay ≤ 0)
    (htypeDelay : s.animationTypeDelay = 0)
    (hdt : 0 ≤ dt) :
    updateAnimation s dt r = runAnimFrame s dt r ∧
    (updateAnimation s dt r).animationDelay ≤ 0 ∧
    (∀ (p : ProgState) (q : ℕ → ℤ),
      (initAnimationType ANIMATION_TYPE_DECAY p q).animationDelay = 0 ∧
      (initAnimationType ANIMATION_TYPE_DECAY p q).animationTypeDelay = 0) := by
  have h1 : updateAnimation s dt r = runAnimFrame s dt r := by
    unfold updateAnimation
    rw [if_neg (by omega)]
  refine ⟨h1, ?_, ?_⟩
  · rw [h1]
    unfold runAnimFrame
    simp only [htype]
    norm_num [ANIMATION_TYPE_CHASE, ANIMATION_TYPE_OFFSET_CHASE, ANIMATION_TYPE_GLOW,
      ANIMATION_TYPE_CROSS, ANIMATION_TYPE_ZIPPY, ANIMATION_TYPE_ZIPPY_CROSS,
      ANIMATION_TYPE_DECAY]
    rw [(animationDecay_delay _ dt r).1, (animationDecay_delay _ dt r).2]
    simp only
    omega
  · intro p q
    unfold initAnimationType
    norm_num [ANIMATION_TYPE_CHASE, ANIMATION_TYPE_OFFSET_CHASE, ANIMATION_TYPE_GLOW,
      ANIMATION_TYPE_CROSS, ANIMATION_TYPE_ZIPPY, ANIMATION_TYPE_ZIPPY_CROSS,
      ANIMATION_TYPE_DECAY, ANIMATION_DELAY_DECAY]

/-- A freshly entered Decay state. -/
def c10State : ProgState :=
  resetLEDState (initAnimationType ANIMATION_TYPE_DECAY
    { initialProgState with animationType := ANIMATION_TYPE_DECAY } (fun _ => 0))

set_option maxRecDepth 8000 in
/-- **C10 witness**: the freshly entered Decay state, a 7 ms frame. -/
theorem claim_C10_witness :
    updateAnimation c10State 7 (fun _ => 0) = runAnimFrame c10State 7 (fun _ => 0) ∧
    (updateAnimation c10State 7 (fun _ => 0)).animationDelay ≤ 0 ∧
    (∀ (p : ProgState) (q : ℕ → ℤ),
      (initAnimationType ANIMATION_TYPE_DECAY p q).animationDelay = 0 ∧
      (initAnimationType ANIMATION_TYPE_DECAY p q).animationTypeDelay = 0) :=
  claim_C10 c10State 7 (fun _ => 0) (by decide) (by decide) (by decide) (by norm_num)

end Bksor

namespace Bksor

/-! ### Claim C8 — reachability of animation kinds via the Mode Selector -/

/-- `b` is reachable from `a` through Mode Selector transitions: some finite
sequence of evaluate calls carries the selector from `a` to `b`. -/
def SelReaches (a b : SelState) : Prop :=
  ∃ l : List (ℤ × ℤ), runSelectorState a l = b

/-- Selector state locked Closed, Glow active (as after a Closed commit). -/
def selGlowLocked : SelState :=
  ⟨FLAIL_STATE_CLOSED, FLAIL_STATE_UNKNOWN, 0, 0, ANIMATION_TYPE_GLOW⟩

/-- Selector state locked Open, OffsetChase active (as after an Open commit). -/
def selOffsetLocked : SelState :=
  ⟨FLAIL_STATE_OPEN, FLAIL_STATE_UNKNOWN, 0, 0, ANIMATION_TYPE_OFFSET_CHASE⟩

/-- Selector state right after the instability escape hatch fired
(8 rapid flips from `selGlowLocked`). -/
def selDecayFlailing : SelState :=
  ⟨FLAIL_STATE_CLOSED, FLAIL_STATE_CLOSED, 600, 360, ANIMATION_TYPE_DECAY⟩

lemma selector_anim_inv (l : List (ℤ × ℤ)) :
    ∀ s : SelState,
      (s.animationType = ANIMATION_TYPE_GLOW ∨
        s.animationType = ANIMATION_TYPE_OFFSET_CHASE ∨
        s.animationType = ANIMATION_TYPE_DECAY) →
      ((runSelectorState s l).animationType = ANIMATION_TYPE_GLOW ∨
        (runSelectorState s l).animationType = ANIMATION_TYPE_OFFSET_CHASE ∨
        (runSelectorState s l).animationType = ANIMATION_TYPE_DECAY) := by
  induction l with
  | nil => intro s h; exact h
  | cons p rest ih =>
    intro s h
    obtain ⟨det, dt⟩ := p
    have hfold : runSelectorState s ((det, dt) :: rest) =
        runSelectorState (updateAnimationTypeSel s det dt).1 rest := rfl
    rw [hfold]
    refine ih _ ?_
    simp only [updateAnimationTypeSel]
    split_ifs <;>
      simp_all [ANIMATION_TYPE_GLOW, ANIMATION_TYPE_OFFSET_CHASE, ANIMATION_TYPE_DECAY,
        FLAIL_STATE_CLOSED]

/-- **C8 (amended).** In the sensor-driven program the Mode Selector only
ever emits Glow, OffsetChase or Decay; those three kinds are mutually
reachable from one another through selector transitions; and the initial
animation kind at startup is None — the first sensor-derived kind appears
only after the 600 ms debounce commit, not from the first raw read.  The
remaining kinds (Chase, Cross, Zippy, ZippyCross) are never selected (see
the counterexample). -/
theorem claim_C8_amended :
    (∀ (s : SelState) (det dt : ℤ),
      (updateAnimationTypeSel s det dt).2 = none ∨
      (updateAnimationTypeSel s det dt).2 = some ANIMATION_TYPE_GLOW ∨
      (updateAnimationTypeSel s det dt).2 = some ANIMATION_TYPE_OFFSET_CHASE ∨
      (updateAnimationTypeSel s det dt).2 = some ANIMATION_TYPE_DECAY) ∧
    SelReaches selGlowLocked selOffsetLocked ∧
    SelReaches selOffsetLocked selGlowLocked ∧
    SelReaches selGlowLocked selDecayFlailing ∧
    SelReaches selDecayFlailing selGlowLocked ∧
    SelReaches selOffsetLocked selDecayFlailing ∧
    SelReaches selDecayFlailing selOffsetLocked ∧
    initialProgState.animationType = ANIMATION_TYPE_NONE := by
  refine ⟨?_, ⟨[(1, 1), (1, 600)], by decide⟩,
    ⟨[(2, 1), (2, 600)], by decide⟩,
    ⟨[(1, 1), (1, 1), (2, 1), (2, 1), (1, 1), (1, 1), (2, 1), (2, 1), (1, 1), (1, 1),
      (2, 1), (2, 1), (1, 1), (1, 1), (2, 1)], by decide⟩,
    ⟨[(2, 600)], by decide⟩,
    ⟨[(2, 1), (2, 600), (1, 1), (1, 1), (2, 1), (2, 1), (1, 1), (1, 1), (2, 1), (2, 1),
      (1, 1), (1, 1), (2, 1), (2, 1), (1, 1), (1, 1), (2, 1)], by decide⟩,
    ⟨[(2, 600), (1, 1), (1, 600)], by decide⟩, rfl⟩
  intro s det dt
  simp only [updateAnimationTypeSel]
  split_ifs <;> simp

/-- **C8 counterexample.** The claim is false: Zippy (likewise Chase,
Cross, ZippyCross) is not reachable from the Glow-locked state — no
sequence of Mode Selector transitions ever selects it, since every
emission installs Glow, OffsetChase or Decay. -/
theorem claim_C8_cex :
    ¬ ∃ l : List (ℤ × ℤ),
        (runSelectorState selGlowLocked l).animationType = ANIMATION_TYPE_ZIPPY := by
  rintro ⟨l, hl⟩
  have h := selector_anim_inv l selGlowLocked (Or.inl rfl)
  rw [hl] at h
  simp [ANIMATION_TYPE_GLOW, ANIMATION_TYPE_OFFSET_CHASE, ANIMATION_TYPE_DECAY,
    ANIMATION_TYPE_ZIPPY] at h

end Bksor
